import Mathlib

/-
Verification development for the Volpar repository (volumetric particles).

The embedding below models the Volpar class found in the bundled source file:
triangle extraction from flat vertex and index buffers, orthographic
projection on a fixed plane, the 2D AABB spatial index (RBush) built over
projected triangles, the parity ray-cast membership test, and the adaptive
chunked fill loop.  Real-number quantities of the source are modelled as
exact rationals.  A JavaScript out-of-bounds buffer read yields undefined,
but the source passes every read straight into the THREE.Vector3
constructor, whose default parameters turn undefined into 0; vertices built
from out-of-bounds reads are therefore zero-filled, which the embedding
models with Option.getD 0.
-/

set_option maxHeartbeats 1000000

/-- Three-dimensional vector with rational coordinates, modelling THREE.Vector3. -/
structure Vec3 where
  x : ℚ
  y : ℚ
  z : ℚ
  deriving DecidableEq, Repr

/-- Componentwise difference of vectors. -/
def Vec3.sub (u v : Vec3) : Vec3 :=
  ⟨u.x - v.x, u.y - v.y, u.z - v.z⟩

/-- Componentwise sum of vectors. -/
def Vec3.add (u v : Vec3) : Vec3 :=
  ⟨u.x + v.x, u.y + v.y, u.z + v.z⟩

/-- Dot product. -/
def Vec3.dot (u v : Vec3) : ℚ :=
  u.x * v.x + u.y * v.y + u.z * v.z

/-- Cross product. -/
def Vec3.cross (u v : Vec3) : Vec3 :=
  ⟨u.y * v.z - u.z * v.y, u.z * v.x - u.x * v.z, u.x * v.y - u.y * v.x⟩

/-- Triangle given by three vertices, modelling THREE.Triangle. -/
structure Triangle where
  a : Vec3
  b : Vec3
  c : Vec3
  deriving DecidableEq, Repr

/-- Plane in Hessian normal form, modelling THREE.Plane: the set of points p
with normal.dot p + constant = 0. -/
structure Plane where
  normal : Vec3
  constant : ℚ
  deriving DecidableEq, Repr

/-- Signed distance from the plane to a point (THREE.Plane.distanceToPoint). -/
def Plane.distanceToPoint (p : Plane) (pt : Vec3) : ℚ :=
  p.normal.dot pt + p.constant

/-- Orthogonal projection of a point onto the plane
(THREE.Plane.projectPoint: target = point - normal * distanceToPoint point). -/
def Plane.projectPoint (p : Plane) (pt : Vec3) : Vec3 :=
  let d := p.distanceToPoint pt
  ⟨pt.x - p.normal.x * d, pt.y - p.normal.y * d, pt.z - p.normal.z * d⟩

/-- Read vertex number j from the flat position buffer: components at slots
3j, 3j+1, 3j+2, each read passed through the Vector3 constructor, which
defaults an undefined (out-of-bounds) read to 0.  An undefined vertex index
(out-of-range read of the index buffer) gives NaN subscripts, so all three
reads are undefined and the constructor zero-fills the vertex. -/
def lookupVertex (positions : List ℚ) : Option ℕ → Vec3
  | none => ⟨0, 0, 0⟩
  | some j => ⟨(positions[3 * j]?).getD 0, (positions[3 * j + 1]?).getD 0,
               (positions[3 * j + 2]?).getD 0⟩

/-- Triangle extraction for indexed geometry, from getTrianglesForIndexedGeometry:
nTriangles = indices.count / 3 and the loop for i < nTriangles consumes index
entries 3i, 3i+1, 3i+2, looking each up in the flat position buffer.  A loop
bound that is a non-integer rational runs ceil of it iterations, hence the
(length + 2) / 3 iteration count in exact arithmetic. -/
def getTrianglesForIndexedGeometry (positions : List ℚ) (indices : List ℕ) : List Triangle :=
  (List.range ((indices.length + 2) / 3)).map fun i =>
    ⟨lookupVertex positions indices[3 * i]?,
     lookupVertex positions indices[3 * i + 1]?,
     lookupVertex positions indices[3 * i + 2]?⟩

/-- Triangle extraction for non-indexed geometry, from
getTrianglesForNonIndexedGeometry: positions.count = length / 3, nTriangles =
positions.count / 3, and triangle idx consumes the nine position slots
9 idx .. 9 idx + 8, every read passed through the Vector3 constructor which
defaults an undefined (out-of-bounds) read to 0. -/
def getTrianglesForNonIndexedGeometry (positions : List ℚ) : List Triangle :=
  (List.range ((positions.length + 8) / 9)).map fun idx =>
    ⟨⟨(positions[9 * idx]?).getD 0, (positions[9 * idx + 1]?).getD 0,
      (positions[9 * idx + 2]?).getD 0⟩,
     ⟨(positions[9 * idx + 3]?).getD 0, (positions[9 * idx + 4]?).getD 0,
      (positions[9 * idx + 5]?).getD 0⟩,
     ⟨(positions[9 * idx + 6]?).getD 0, (positions[9 * idx + 7]?).getD 0,
      (positions[9 * idx + 8]?).getD 0⟩⟩

/-- Error named by the specification for malformed vertex or index buffers.
The repository source defines no such error and performs no buffer validation. -/
inductive MalformedGeometryError
  | mk
  deriving DecidableEq, Repr

/-- Modelled from the spec: extraction over indexed geometry fails with
MalformedGeometryError if the position buffer length is not a multiple of 3
or if an index entry exceeds the position buffer bounds, producing no partial
result; otherwise it yields the extracted triangles.  This is the contract
stated by the specification, written here for comparison with the source
function getTrianglesForIndexedGeometry, which has no failure path. -/
def extractIndexedSpec (positions : List ℚ) (indices : List ℕ) :
    Except MalformedGeometryError (List Triangle) :=
  if positions.length % 3 = 0 ∧ indices.all (fun j => 3 * j + 3 ≤ positions.length) then
    Except.ok (getTrianglesForIndexedGeometry positions indices)
  else
    Except.error MalformedGeometryError.mk

/-- Two-dimensional axis-aligned bounding box as returned by getTriangleAABB. -/
structure AABB where
  xmin : ℚ
  xmax : ℚ
  ymin : ℚ
  ymax : ℚ
  deriving DecidableEq, Repr

/-- From getTriangleAABB: requires the triangle to lie in a z-constant plane,
throwing otherwise, and returns the min and max of the x and y coordinates. -/
def getTriangleAABB (t : Triangle) : Except String AABB :=
  if t.a.z ≠ t.b.z ∨ t.a.z ≠ t.c.z ∨ t.b.z ≠ t.c.z then
    Except.error "Impossible to get 2D AABB bounding box, triangle not in a z-constant plane"
  else
    Except.ok ⟨min (min t.a.x t.b.x) t.c.x, max (max t.a.x t.b.x) t.c.x,
               min (min t.a.y t.b.y) t.c.y, max (max t.a.y t.b.y) t.c.y⟩

/-- The plane normal fixed in buildMeshSHM. -/
def planeNormal : Vec3 := ⟨0, 0, 1⟩

/-- The projection direction stored into geometry.userData.shmProjectionDirection
at index-build time: it is the plane normal. -/
def shmProjectionDirection : Vec3 := planeNormal

/-- The projection plane stored into geometry.userData.shmProjectionPlane:
normal (0,0,1) with constant 30, that is the plane z = -30. -/
def shmPlane : Plane := ⟨planeNormal, 30⟩

/-- Projection of all three triangle vertices onto a plane, as done per
triangle in buildMeshSHM. -/
def projectTriangle (p : Plane) (t : Triangle) : Triangle :=
  ⟨p.projectPoint t.a, p.projectPoint t.b, p.projectPoint t.c⟩

/-- One record inserted into the RBush spatial index by buildMeshSHM: the
widened AABB of the projected triangle together with the source triangle
(standing for the single-triangle mesh stored in the item). -/
structure SHMEntry where
  minX : ℚ
  minY : ℚ
  maxX : ℚ
  maxY : ℚ
  tri : Triangle
  deriving DecidableEq, Repr

/-- Per-triangle work of buildMeshSHM: project the triangle, take its 2D AABB
(which can throw via getTriangleAABB), widen any zero-extent axis by 1 on the
max side, and form the index entry. -/
def buildEntry (t : Triangle) : Except String SHMEntry := do
  let aabb ← getTriangleAABB (projectTriangle shmPlane t)
  let xmax := if aabb.xmin = aabb.xmax then aabb.xmax + 1 else aabb.xmax
  let ymax := if aabb.ymin = aabb.ymax then aabb.ymax + 1 else aabb.ymax
  return ⟨aabb.xmin, aabb.ymin, xmax, ymax, t⟩

/-- Index construction of buildMeshSHM over the extracted triangles: one
entry inserted per triangle, in triangle order. -/
def buildMeshSHM (triangles : List Triangle) : Except String (List SHMEntry) :=
  triangles.mapM buildEntry

/-- Ray with near and far distance bounds, modelling THREE.Raycaster
parameters. -/
structure Ray where
  origin : Vec3
  direction : Vec3
  near : ℚ
  far : ℚ
  deriving DecidableEq, Repr

/-- The raycaster built in fillMeshWithParticlesFrame: origin at the candidate
point, direction hardcoded to (0, 0, -1), near 0.1 and far 1000.  The source
reads geometry.userData.shmProjectionDirection into a local variable but does
not pass it to the raycaster. -/
def frameRay (pt : Vec3) : Ray :=
  ⟨pt, ⟨0, 0, -1⟩, 1 / 10, 1000⟩

/-- Ray and triangle intersection distance, following THREE.Ray.intersectTriangle
without backface culling (the triangle meshes use a double-sided material):
Moeller-Trumbore style barycentric sign tests, returning the ray parameter of
the hit when the line meets the triangle at nonnegative parameter. -/
def rayTriangleDistance (r : Ray) (t : Triangle) : Option ℚ :=
  let edge1 := t.b.sub t.a
  let edge2 := t.c.sub t.a
  let nrm := edge1.cross edge2
  let ddn := r.direction.dot nrm
  if ddn = 0 then none
  else
    let sgn : ℚ := if 0 < ddn then 1 else -1
    let addn := sgn * ddn
    let diff := r.origin.sub t.a
    let ddqxe2 := sgn * (r.direction.dot (diff.cross edge2))
    if ddqxe2 < 0 then none
    else
      let dde1xq := sgn * (r.direction.dot (edge1.cross diff))
      if dde1xq < 0 then none
      else if addn < ddqxe2 + dde1xq then none
      else
        let qdn := -sgn * (diff.dot nrm)
        if qdn < 0 then none
        else some (qdn / addn)

/-- Whether the raycaster reports an intersection with the triangle: a hit
whose distance lies within the near and far bounds (THREE.Raycaster discards
hits with distance below near or above far). -/
def rayHitsTriangle (r : Ray) (t : Triangle) : Bool :=
  match rayTriangleDistance r t with
  | none => false
  | some d => decide (r.near ≤ d) && decide (d ≤ r.far)

/-- Number of triangles of the list intersected by the ray, the count taken
by the parity test over raycaster.intersectObjects. -/
def countRayHits (r : Ray) (ts : List Triangle) : ℕ :=
  (ts.filter (fun t => rayHitsTriangle r t)).length

/-- RBush search over the inserted entries: returns every entry whose box
intersects the query box (rectangle overlap test of the rbush library). -/
def shmSearch (entries : List SHMEntry) (minX minY maxX maxY : ℚ) : List SHMEntry :=
  entries.filter fun e =>
    decide (e.minX ≤ maxX) && decide (e.minY ≤ maxY) &&
    decide (minX ≤ e.maxX) && decide (minY ≤ e.maxY)

/-- The spatial-index query issued for one candidate point in
fillMeshWithParticlesFrame: project the point onto the plane and search with
the box from (projPt.x, projPt.y) to (projPt.x + 1, projPt.y + 1). -/
def searchForPoint (entries : List SHMEntry) (pt : Vec3) : List SHMEntry :=
  let projPt := shmPlane.projectPoint pt
  shmSearch entries projPt.x projPt.y (projPt.x + 1) (projPt.y + 1)

/-- Outcome of the membership test for one candidate point.  rejectedNoMesh is
the branch taken when the index query returns no entries, before any ray is
cast; the other outcomes carry the ray-hit count computed against the matched
triangles. -/
inductive Classify
  | rejectedNoMesh
  | rejectedEven (hits : ℕ)
  | accepted (hits : ℕ)
  deriving DecidableEq, Repr

/-- Membership test for one candidate point, from the loop body of
fillMeshWithParticlesFrame: empty query result rejects the point with no ray
cast; otherwise the ray hit count against the matched triangles decides by
parity, even count rejecting and odd count accepting. -/
def classifyPoint (entries : List SHMEntry) (pt : Vec3) : Classify :=
  let objects := searchForPoint entries pt
  if objects.isEmpty then Classify.rejectedNoMesh
  else
    let n := countRayHits (frameRay pt) (objects.map SHMEntry.tri)
    if n % 2 = 0 then Classify.rejectedEven n else Classify.accepted n

/-- Mutable fill state of the Volpar instance: accepted particle count, target
count, flat particle coordinate store, chunk size and the auto-size flag. -/
structure FillState where
  particlesCount : ℕ
  nParticles : ℕ
  particles : List ℚ
  fillChunckSize : ℚ
  fillChunckAutoSize : Bool
  deriving DecidableEq, Repr

/-- State reached by the constructor for a given particles parameter:
particlesCount 0, empty particle store, chunk size 10000 with auto sizing on,
and target count defaulting to 50000 when no number is supplied. -/
def initialFillState (particlesParam : Option ℕ) : FillState :=
  ⟨0, particlesParam.getD 50000, [], 10000, true⟩

/-- Effect of one loop iteration of fillMeshWithParticlesFrame on the fill
state, for an already generated candidate point: an accepted point increments
particlesCount and pushes its three coordinates onto the particle store; a
rejected point leaves the state unchanged. -/
def fillStepOne (entries : List SHMEntry) (st : FillState) (pt : Vec3) : FillState :=
  match classifyPoint entries pt with
  | Classify.accepted _ =>
      { st with particlesCount := st.particlesCount + 1,
                particles := st.particles ++ [pt.x, pt.y, pt.z] }
  | _ => st

/-- Candidate point generation inside the mesh bounding box: component-wise
center + size * random - size * 0.5 with random draws in [0, 1). -/
def genPoint (center size r : Vec3) : Vec3 :=
  ⟨center.x + size.x * r.x - size.x * (1 / 2),
   center.y + size.y * r.y - size.y * (1 / 2),
   center.z + size.z * r.z - size.z * (1 / 2)⟩

/-- The while loop of fillMeshWithParticlesFrame, with the injectable random
source supplied as a list of random triples: while particlesCount differs from
nParticles and the iteration count stays below fillChunckSize, generate a
candidate and run the membership test on it.  The loop stops when the random
stream is exhausted. -/
def fillLoop (entries : List SHMEntry) (center size : Vec3) :
    ℕ → FillState → List Vec3 → FillState
  | _, st, [] => st
  | count, st, r :: rest =>
    if st.particlesCount ≠ st.nParticles ∧ (count : ℚ) < st.fillChunckSize then
      fillLoop entries center size (count + 1)
        (fillStepOne entries st (genPoint center size r)) rest
    else st

/-- Chunk size adaptation after one frame, from fillMeshWithParticlesFrame:
when auto sizing is on and the measured frame duration leaves the 12 to 16
window, the chunk size is rescaled by 16 / duration. -/
def adaptChunkSize (autoSize : Bool) (duration chunk : ℚ) : ℚ :=
  if autoSize then
    if duration > 16 ∨ duration < 12 then chunk * (16 / duration) else chunk
  else chunk

/-- One whole frame of fillMeshWithParticlesFrame: run the candidate loop from
iteration count 0, then apply chunk size adaptation for the measured frame
duration supplied by the injectable time source. -/
def fillMeshWithParticlesFrame (entries : List SHMEntry) (center size : Vec3)
    (st : FillState) (rand : List Vec3) (duration : ℚ) : FillState :=
  let st1 := fillLoop entries center size 0 st rand
  { st1 with fillChunckSize := adaptChunkSize st1.fillChunckAutoSize duration st1.fillChunckSize }

/-- Componentwise minimum. -/
def vecMin (u v : Vec3) : Vec3 := ⟨min u.x v.x, min u.y v.y, min u.z v.z⟩

/-- Componentwise maximum. -/
def vecMax (u v : Vec3) : Vec3 := ⟨max u.x v.x, max u.y v.y, max u.z v.z⟩

/-- fillMeshWithParticles: compute the bounding box of the geometry vertices
(supplied nonempty as head and tail), store its center and size, and run one
fill frame.  The source performs no session-state check before doing so. -/
def fillMeshWithParticles (v0 : Vec3) (vrest : List Vec3) (entries : List SHMEntry)
    (st : FillState) (rand : List Vec3) (duration : ℚ) : FillState :=
  let lo := vrest.foldl vecMin v0
  let hi := vrest.foldl vecMax v0
  let center : Vec3 := ⟨(lo.x + hi.x) / 2, (lo.y + hi.y) / 2, (lo.z + hi.z) / 2⟩
  let size : Vec3 := hi.sub lo
  fillMeshWithParticlesFrame entries center size st rand duration

/-- Invariant of the fill session: the flat particle store holds exactly three
values per accepted particle and the accepted count never exceeds the target. -/
def FillInv (st : FillState) : Prop :=
  st.particles.length = 3 * st.particlesCount ∧ st.particlesCount ≤ st.nParticles

/-- Sample triangle used by concrete witnesses: it spans the square around the
origin at depth z = -5, so the downward frame ray from the origin meets it at
distance 5. -/
def sampleTri : Triangle :=
  ⟨⟨-100, -100, -5⟩, ⟨100, -100, -5⟩, ⟨0, 100, -5⟩⟩

/-- Sample spatial-index contents used by concrete witnesses: one entry whose
box contains the projection of the origin. -/
def sampleEntries : List SHMEntry :=
  [⟨-10, -10, 10, 10, sampleTri⟩]

/-! Helper lemmas shared by the claim theorems. -/

/-- Projection onto the stored plane forces the z coordinate to -30. -/
lemma projectPoint_z (v : Vec3) : (shmPlane.projectPoint v).z = -30 := by
  simp only [shmPlane, planeNormal, Plane.projectPoint, Plane.distanceToPoint, Vec3.dot]
  ring

/-- The AABB returned by getTriangleAABB has its min below its max on both axes. -/
lemma getTriangleAABB_min_le_max (t : Triangle) (a : AABB)
    (ha : getTriangleAABB t = Except.ok a) :
    a.xmin ≤ a.xmax ∧ a.ymin ≤ a.ymax := by
  unfold getTriangleAABB at ha
  split at ha
  · cases ha
  · cases ha
    constructor
    · exact le_trans (min_le_left _ _)
        (le_trans (min_le_left _ _) (le_trans (le_max_left _ _) (le_max_left _ _)))
    · exact le_trans (min_le_left _ _)
        (le_trans (min_le_left _ _) (le_trans (le_max_left _ _) (le_max_left _ _)))

/-- On a projected triangle the z-constant guard of getTriangleAABB never
fires, so the AABB computation succeeds. -/
lemma getTriangleAABB_proj_ok (t : Triangle) :
    ∃ a, getTriangleAABB (projectTriangle shmPlane t) = Except.ok a := by
  unfold getTriangleAABB
  rw [if_neg]
  · exact ⟨_, rfl⟩
  · push_neg
    refine ⟨?_, ?_, ?_⟩ <;>
      simp [projectTriangle, projectPoint_z]

/-- buildEntry never fails: the projected triangle always passes the
z-constant guard. -/
lemma buildEntry_isOk (t : Triangle) : ∃ e, buildEntry t = Except.ok e := by
  obtain ⟨a, ha⟩ := getTriangleAABB_proj_ok t
  unfold buildEntry
  rw [ha]
  exact ⟨_, rfl⟩

/-- Index construction succeeds on every triangle list: each per-triangle
entry build succeeds, so the whole mapM does. -/
lemma buildMeshSHM_isOk (ts : List Triangle) : ∃ es, buildMeshSHM ts = Except.ok es := by
  unfold buildMeshSHM
  induction ts with
  | nil => exact ⟨[], rfl⟩
  | cons t rest ih =>
    obtain ⟨es, hes⟩ := ih
    obtain ⟨e, he⟩ := buildEntry_isOk t
    refine ⟨e :: es, ?_⟩
    rw [List.mapM_cons, he, hes]
    rfl

/-- One candidate either leaves the state unchanged or appends exactly one
particle. -/
lemma fillStepOne_cases (entries : List SHMEntry) (st : FillState) (pt : Vec3) :
    fillStepOne entries st pt = st ∨
    fillStepOne entries st pt =
      { st with particlesCount := st.particlesCount + 1,
                particles := st.particles ++ [pt.x, pt.y, pt.z] } := by
  unfold fillStepOne
  cases classifyPoint entries pt <;> simp

/-- One candidate step preserves the fill invariant while the session is not
yet complete. -/
lemma fillStepOne_inv (entries : List SHMEntry) (st : FillState) (pt : Vec3)
    (h : FillInv st) (hne : st.particlesCount ≠ st.nParticles) :
    FillInv (fillStepOne entries st pt) := by
  rcases fillStepOne_cases entries st pt with he | he <;> rw [he]
  · exact h
  · obtain ⟨h1, h2⟩ := h
    constructor
    · simp only [List.length_append, h1, List.length_cons, List.length_nil]
      ring
    · simp only []
      omega

/-- One candidate step never touches the chunk size, the auto-size flag or
the target count. -/
lemma fillStepOne_frame_fields (entries : List SHMEntry) (st : FillState) (pt : Vec3) :
    (fillStepOne entries st pt).fillChunckSize = st.fillChunckSize ∧
    (fillStepOne entries st pt).fillChunckAutoSize = st.fillChunckAutoSize ∧
    (fillStepOne entries st pt).nParticles = st.nParticles := by
  rcases fillStepOne_cases entries st pt with he | he <;> rw [he] <;> exact ⟨rfl, rfl, rfl⟩

/-- The fill loop preserves the invariant. -/
lemma fillLoop_inv (entries : List SHMEntry) (center size : Vec3) :
    ∀ (rand : List Vec3) (count : ℕ) (st : FillState), FillInv st →
      FillInv (fillLoop entries center size count st rand) := by
  intro rand
  induction rand with
  | nil => intro count st h; exact h
  | cons r rest ih =>
    intro count st h
    rw [fillLoop]
    split
    · rename_i hcond
      exact ih _ _ (fillStepOne_inv _ _ _ h hcond.1)
    · exact h

/-- The fill loop generates no candidate once the accepted count equals the
target: it returns the state unchanged. -/
lemma fillLoop_complete (entries : List SHMEntry) (center size : Vec3)
    (count : ℕ) (st : FillState) (rand : List Vec3)
    (h : st.particlesCount = st.nParticles) :
    fillLoop entries center size count st rand = st := by
  cases rand with
  | nil => rfl
  | cons r rest =>
    rw [fillLoop, if_neg]
    intro hcond
    exact hcond.1 h

/-- The fill loop never touches the chunk size or the auto-size flag. -/
lemma fillLoop_frame_fields (entries : List SHMEntry) (center size : Vec3) :
    ∀ (rand : List Vec3) (count : ℕ) (st : FillState),
      (fillLoop entries center size count st rand).fillChunckSize = st.fillChunckSize ∧
      (fillLoop entries center size count st rand).fillChunckAutoSize = st.fillChunckAutoSize := by
  intro rand
  induction rand with
  | nil => intro count st; exact ⟨rfl, rfl⟩
  | cons r rest ih =>
    intro count st
    rw [fillLoop]
    split
    · obtain ⟨hc, ha, _⟩ := fillStepOne_frame_fields entries st (genPoint center size r)
      obtain ⟨ihc, iha⟩ := ih (count + 1) (fillStepOne entries st (genPoint center size r))
      exact ⟨ihc.trans hc, iha.trans ha⟩
    · exact ⟨rfl, rfl⟩

/-! Claim theorems. -/

/-- Claim C3: for an index buffer of 3n entries, indexed extraction yields n
triangles, triangle i reading index entries 3i, 3i+1, 3i+2 and looking each
up in the flat position buffer; for a position buffer of 9n values,
non-indexed extraction yields n triangles, each consuming nine consecutive
values; in both cases entry i of the output comes from entry i of the input
buffers, so output order matches input buffer order. -/
theorem c3_triangle_extraction (positions : List ℚ) (indices : List ℕ) (n : ℕ) :
    (indices.length = 3 * n →
      (getTrianglesForIndexedGeometry positions indices).length = n ∧
      ∀ i, i < n →
        (getTrianglesForIndexedGeometry positions indices)[i]? =
          some ⟨lookupVertex positions indices[3 * i]?,
                lookupVertex positions indices[3 * i + 1]?,
                lookupVertex positions indices[3 * i + 2]?⟩) ∧
    (positions.length = 9 * n →
      (getTrianglesForNonIndexedGeometry positions).length = n ∧
      ∀ i, i < n →
        (getTrianglesForNonIndexedGeometry positions)[i]? =
          some ⟨⟨(positions[9 * i]?).getD 0, (positions[9 * i + 1]?).getD 0,
                 (positions[9 * i + 2]?).getD 0⟩,
                ⟨(positions[9 * i + 3]?).getD 0, (positions[9 * i + 4]?).getD 0,
                 (positions[9 * i + 5]?).getD 0⟩,
                ⟨(positions[9 * i + 6]?).getD 0, (positions[9 * i + 7]?).getD 0,
                 (positions[9 * i + 8]?).getD 0⟩⟩) := by
  constructor
  · intro h
    have hn : (indices.length + 2) / 3 = n := by omega
    constructor
    · simp [getTrianglesForIndexedGeometry, hn]
    · intro i hi
      simp [getTrianglesForIndexedGeometry, hn, List.getElem?_map, List.getElem?_range, hi]
  · intro h
    have hn : (positions.length + 8) / 9 = n := by omega
    constructor
    · simp [getTrianglesForNonIndexedGeometry, hn]
    · intro i hi
      simp [getTrianglesForNonIndexedGeometry, hn, List.getElem?_map, List.getElem?_range, hi]

/-- Witness for C3 at a one-triangle geometry given both indexed and
non-indexed. -/
theorem c3_triangle_extraction_witness :
    (getTrianglesForIndexedGeometry [0, 0, 0, 1, 0, 0, 0, 1, 0] [0, 1, 2]).length = 1 ∧
    (getTrianglesForIndexedGeometry [0, 0, 0, 1, 0, 0, 0, 1, 0] [0, 1, 2])[0]? =
      some ⟨lookupVertex [0, 0, 0, 1, 0, 0, 0, 1, 0] (([0, 1, 2] : List ℕ)[3 * 0]?),
            lookupVertex [0, 0, 0, 1, 0, 0, 0, 1, 0] (([0, 1, 2] : List ℕ)[3 * 0 + 1]?),
            lookupVertex [0, 0, 0, 1, 0, 0, 0, 1, 0] (([0, 1, 2] : List ℕ)[3 * 0 + 2]?)⟩ ∧
    (getTrianglesForNonIndexedGeometry [0, 0, 0, 1, 0, 0, 0, 1, 0]).length = 1 := by
  obtain ⟨hidx, hnon⟩ := c3_triangle_extraction [0, 0, 0, 1, 0, 0, 0, 1, 0] [0, 1, 2] 1
  exact ⟨(hidx rfl).1, (hidx rfl).2 0 (by norm_num), (hnon rfl).1⟩

/-- Claim C4 counterexample: on an indexed geometry whose position buffer has
length 4 (not a multiple of 3) and whose second vertex index reads past the
buffer end, the source extraction does not fail; it returns a complete
triangle list whose out-of-bounds components are zero-filled by the Vector3
constructor, while the contract stated by the specification demands a
MalformedGeometryError with no result.  The source contains no
MalformedGeometryError and no buffer validation at all. -/
theorem c4_no_validation_counterexample :
    getTrianglesForIndexedGeometry [5, 6, 7, 8] [0, 1, 1] =
      [⟨⟨5, 6, 7⟩, ⟨8, 0, 0⟩, ⟨8, 0, 0⟩⟩] ∧
    extractIndexedSpec [5, 6, 7, 8] [0, 1, 1] = Except.error MalformedGeometryError.mk := by
  constructor
  · rfl
  · rfl

/-- Claim C4 amended: triangle extraction performs no validation and has no
failure path: whatever the buffer shapes, indexed extraction returns
ceil(indexCount / 3) triangles and non-indexed extraction returns
ceil(positionCount / 9) triangles; a vertex index beyond the position buffer
bounds silently yields a zero-filled vertex (the Vector3 constructor
defaults the undefined reads to 0); and index construction proceeds on the
extracted triangles, the spatial index build succeeding on both results. -/
theorem c4_extraction_never_fails (positions : List ℚ) (indices : List ℕ) (j : ℕ) :
    (getTrianglesForIndexedGeometry positions indices).length = (indices.length + 2) / 3 ∧
    (getTrianglesForNonIndexedGeometry positions).length = (positions.length + 8) / 9 ∧
    (positions.length ≤ 3 * j → lookupVertex positions (some j) = ⟨0, 0, 0⟩) ∧
    (∃ es, buildMeshSHM (getTrianglesForIndexedGeometry positions indices) = Except.ok es) ∧
    (∃ es, buildMeshSHM (getTrianglesForNonIndexedGeometry positions) = Except.ok es) := by
  refine ⟨by simp [getTrianglesForIndexedGeometry],
          by simp [getTrianglesForNonIndexedGeometry], ?_,
          buildMeshSHM_isOk _, buildMeshSHM_isOk _⟩
  intro h
  have e1 : positions[3 * j]? = none := List.getElem?_eq_none (by omega)
  have e2 : positions[3 * j + 1]? = none := List.getElem?_eq_none (by omega)
  have e3 : positions[3 * j + 2]? = none := List.getElem?_eq_none (by omega)
  simp [lookupVertex, e1, e2, e3]

/-- Witness for the amended C4 at a one-value position buffer and an
out-of-bounds vertex index. -/
theorem c4_extraction_never_fails_witness :
    (getTrianglesForIndexedGeometry [0] [0, 1]).length = (2 + 2) / 3 ∧
    lookupVertex [0] (some 1) = ⟨0, 0, 0⟩ ∧
    ∃ es, buildMeshSHM (getTrianglesForIndexedGeometry [0] [0, 1]) = Except.ok es := by
  obtain ⟨h1, _, h3, h4, _⟩ := c4_extraction_never_fails [0] [0, 1] 1
  exact ⟨h1, h3 (by norm_num), h4⟩

/-- Claim C5: every entry built for the spatial index satisfies
minX < maxX and minY < maxY: relative to the raw AABB of the projected
triangle, an axis with zero extent is widened by exactly 1 unit on the max
side, and an axis with nonzero extent is left unchanged; mins are never
touched. -/
theorem c5_aabb_widening (t : Triangle) (a : AABB) (e : SHMEntry)
    (ha : getTriangleAABB (projectTriangle shmPlane t) = Except.ok a)
    (he : buildEntry t = Except.ok e) :
    e.minX < e.maxX ∧ e.minY < e.maxY ∧ e.minX = a.xmin ∧ e.minY = a.ymin ∧
    (a.xmin = a.xmax → e.maxX = a.xmax + 1) ∧ (a.xmin ≠ a.xmax → e.maxX = a.xmax) ∧
    (a.ymin = a.ymax → e.maxY = a.ymax + 1) ∧ (a.ymin ≠ a.ymax → e.maxY = a.ymax) := by
  obtain ⟨hx, hy⟩ := getTriangleAABB_min_le_max _ _ ha
  unfold buildEntry at he
  rw [ha] at he
  have he2 : e = ⟨a.xmin, a.ymin,
      if a.xmin = a.xmax then a.xmax + 1 else a.xmax,
      if a.ymin = a.ymax then a.ymax + 1 else a.ymax, t⟩ := by
    cases he
    rfl
  subst he2
  refine ⟨?_, ?_, rfl, rfl, ?_, ?_, ?_, ?_⟩
  · by_cases hc : a.xmin = a.xmax
    · simp only [hc, if_pos]
      linarith
    · simp only [if_neg hc]
      exact lt_of_le_of_ne hx hc
  · by_cases hc : a.ymin = a.ymax
    · simp only [hc, if_pos]
      linarith
    · simp only [if_neg hc]
      exact lt_of_le_of_ne hy hc
  · intro hc
    simp only [if_pos hc]
  · intro hc
    simp only [if_neg hc]
  · intro hc
    simp only [if_pos hc]
  · intro hc
    simp only [if_neg hc]

/-- Witness for C5 at a fully degenerate triangle whose projected AABB has
zero extent on both axes: both max sides are widened to min + 1. -/
theorem c5_aabb_widening_witness :
    getTriangleAABB (projectTriangle shmPlane ⟨⟨0, 0, 0⟩, ⟨0, 0, 0⟩, ⟨0, 0, 0⟩⟩) =
      Except.ok ⟨0, 0, 0, 0⟩ ∧
    buildEntry ⟨⟨0, 0, 0⟩, ⟨0, 0, 0⟩, ⟨0, 0, 0⟩⟩ =
      Except.ok ⟨0, 0, 1, 1, ⟨⟨0, 0, 0⟩, ⟨0, 0, 0⟩, ⟨0, 0, 0⟩⟩⟩ ∧
    (⟨0, 0, 1, 1, ⟨⟨0, 0, 0⟩, ⟨0, 0, 0⟩, ⟨0, 0, 0⟩⟩⟩ : SHMEntry).minX <
      (⟨0, 0, 1, 1, ⟨⟨0, 0, 0⟩, ⟨0, 0, 0⟩, ⟨0, 0, 0⟩⟩⟩ : SHMEntry).maxX ∧
    (⟨0, 0, 1, 1, ⟨⟨0, 0, 0⟩, ⟨0, 0, 0⟩, ⟨0, 0, 0⟩⟩⟩ : SHMEntry).maxX = 0 + 1 := by
  have ha : getTriangleAABB (projectTriangle shmPlane ⟨⟨0, 0, 0⟩, ⟨0, 0, 0⟩, ⟨0, 0, 0⟩⟩) =
      Except.ok ⟨0, 0, 0, 0⟩ := by
    norm_num [getTriangleAABB, projectTriangle, Plane.projectPoint, Plane.distanceToPoint,
      Vec3.dot, shmPlane, planeNormal]
  have he : buildEntry ⟨⟨0, 0, 0⟩, ⟨0, 0, 0⟩, ⟨0, 0, 0⟩⟩ =
      Except.ok ⟨0, 0, 1, 1, ⟨⟨0, 0, 0⟩, ⟨0, 0, 0⟩, ⟨0, 0, 0⟩⟩⟩ := by
    unfold buildEntry
    rw [ha]
    norm_num
  obtain ⟨h1, _, _, _, h5, _, _, _⟩ :=
    c5_aabb_widening ⟨⟨0, 0, 0⟩, ⟨0, 0, 0⟩, ⟨0, 0, 0⟩⟩ ⟨0, 0, 0, 0⟩
      ⟨0, 0, 1, 1, ⟨⟨0, 0, 0⟩, ⟨0, 0, 0⟩, ⟨0, 0, 0⟩⟩⟩ ha he
  exact ⟨ha, he, h1, h5 rfl⟩

/-- Claim C9 counterexample: the z-constant orientation check is not confined
to a debug-only helper; it sits inside getTriangleAABB, the very AABB routine
the production indexing path buildMeshSHM invokes for every projected
triangle, and it throws on a triangle whose vertices do not share one z
coordinate. -/
theorem c9_zcheck_counterexample :
    getTriangleAABB ⟨⟨0, 0, 0⟩, ⟨0, 0, 1⟩, ⟨0, 0, 2⟩⟩ =
      Except.error
        "Impossible to get 2D AABB bounding box, triangle not in a z-constant plane" := by
  rfl

/-- Claim C9 amended: the z-constant check lives in getTriangleAABB, which the
production indexing path calls on every projected triangle; nevertheless
index construction never raises that error, whatever the source triangle
orientation, because projection onto the stored plane forces all three
z coordinates to -30. -/
theorem c9_index_never_errors (ts : List Triangle) :
    ∃ es, buildMeshSHM ts = Except.ok es :=
  buildMeshSHM_isOk ts

/-- Claim C1: for a candidate whose spatial-index query matches at least one
entry, the membership test accepts the point, incrementing the count and
appending its coordinates to the particle store, exactly when the ray-hit
count against the matched triangles is odd, and discards it leaving the
state unchanged when the count is even. -/
theorem c1_parity_membership (entries : List SHMEntry) (st : FillState) (pt : Vec3)
    (h : searchForPoint entries pt ≠ []) :
    (countRayHits (frameRay pt) ((searchForPoint entries pt).map SHMEntry.tri) % 2 = 1 →
      classifyPoint entries pt =
        Classify.accepted
          (countRayHits (frameRay pt) ((searchForPoint entries pt).map SHMEntry.tri)) ∧
      fillStepOne entries st pt =
        { st with particlesCount := st.particlesCount + 1,
                  particles := st.particles ++ [pt.x, pt.y, pt.z] }) ∧
    (countRayHits (frameRay pt) ((searchForPoint entries pt).map SHMEntry.tri) % 2 = 0 →
      classifyPoint entries pt =
        Classify.rejectedEven
          (countRayHits (frameRay pt) ((searchForPoint entries pt).map SHMEntry.tri)) ∧
      fillStepOne entries st pt = st) := by
  have hne : (searchForPoint entries pt).isEmpty = false := by
    cases hcase : searchForPoint entries pt with
    | nil => exact absurd hcase h
    | cons a l => rfl
  constructor
  · intro hodd
    have h0 : ¬ countRayHits (frameRay pt) ((searchForPoint entries pt).map SHMEntry.tri) % 2 = 0 := by
      omega
    have hc : classifyPoint entries pt =
        Classify.accepted
          (countRayHits (frameRay pt) ((searchForPoint entries pt).map SHMEntry.tri)) := by
      unfold classifyPoint
      simp only [hne, Bool.false_eq_true, if_false, if_neg h0]
    refine ⟨hc, ?_⟩
    unfold fillStepOne
    rw [hc]
  · intro heven
    have hc : classifyPoint entries pt =
        Classify.rejectedEven
          (countRayHits (frameRay pt) ((searchForPoint entries pt).map SHMEntry.tri)) := by
      unfold classifyPoint
      simp only [hne, Bool.false_eq_true, if_false, if_pos heven]
    refine ⟨hc, ?_⟩
    unfold fillStepOne
    rw [hc]

/-- Witness for C1: at the origin, with one matched triangle at depth -5, the
ray-hit count is 1 (odd) and the candidate is accepted and stored. -/
theorem c1_parity_membership_witness :
    classifyPoint sampleEntries ⟨0, 0, 0⟩ = Classify.accepted 1 ∧
    fillStepOne sampleEntries (initialFillState none) ⟨0, 0, 0⟩ =
      ⟨1, 50000, [0, 0, 0], 10000, true⟩ := by
  have hsearch : searchForPoint sampleEntries ⟨0, 0, 0⟩ = sampleEntries := by
    norm_num [searchForPoint, shmSearch, sampleEntries, sampleTri, shmPlane, planeNormal,
      Plane.projectPoint, Plane.distanceToPoint, Vec3.dot, List.filter]
  have hcount : countRayHits (frameRay ⟨0, 0, 0⟩)
      ((searchForPoint sampleEntries ⟨0, 0, 0⟩).map SHMEntry.tri) = 1 := by
    rw [hsearch]
    norm_num [countRayHits, rayHitsTriangle, rayTriangleDistance, frameRay, sampleTri,
      sampleEntries, Vec3.sub, Vec3.cross, Vec3.dot, List.filter]
  obtain ⟨h1, _⟩ := c1_parity_membership sampleEntries (initialFillState none) ⟨0, 0, 0⟩
    (by rw [hsearch]; norm_num [sampleEntries])
  obtain ⟨hc, hf⟩ := h1 (by rw [hcount])
  rw [hcount] at hc
  refine ⟨hc, ?_⟩
  rw [hf]
  rfl

/-- Claim C2: a candidate whose spatial-index query returns no entries is
classified through the dedicated no-mesh branch, before any ray cast, and
discarded leaving the fill state unchanged. -/
theorem c2_empty_search_rejects (entries : List SHMEntry) (st : FillState) (pt : Vec3)
    (h : searchForPoint entries pt = []) :
    classifyPoint entries pt = Classify.rejectedNoMesh ∧
    fillStepOne entries st pt = st := by
  have hc : classifyPoint entries pt = Classify.rejectedNoMesh := by
    unfold classifyPoint
    rw [h]
    rfl
  refine ⟨hc, ?_⟩
  unfold fillStepOne
  rw [hc]

/-- Witness for C2 over an empty index. -/
theorem c2_empty_search_rejects_witness :
    classifyPoint [] ⟨0, 0, 0⟩ = Classify.rejectedNoMesh ∧
    fillStepOne [] (initialFillState none) ⟨0, 0, 0⟩ = initialFillState none := by
  exact c2_empty_search_rejects [] (initialFillState none) ⟨0, 0, 0⟩ rfl

/-- Claim C10: the fill loop preserves the store invariant (three coordinates
per accepted particle, accepted count at most the target), it generates no
candidate at all once the accepted count equals the target, and each accepted
candidate appends exactly its x, y, z to the end of the store while
incrementing the count. -/
theorem c10_fill_invariant (entries : List SHMEntry) (center size : Vec3)
    (count : ℕ) (st : FillState) (rand : List Vec3) :
    (FillInv st → FillInv (fillLoop entries center size count st rand)) ∧
    (st.particlesCount = st.nParticles → fillLoop entries center size count st rand = st) ∧
    (∀ pt n, classifyPoint entries pt = Classify.accepted n →
      fillStepOne entries st pt =
        { st with particlesCount := st.particlesCount + 1,
                  particles := st.particles ++ [pt.x, pt.y, pt.z] }) := by
  refine ⟨fun h => fillLoop_inv entries center size rand count st h,
          fillLoop_complete entries center size count st rand, ?_⟩
  intro pt n hc
  unfold fillStepOne
  rw [hc]

/-- Witness for C10: the invariant after one loop pass, the unchanged state
of a completed session, and the concrete effect of one accepted candidate. -/
theorem c10_fill_invariant_witness :
    FillInv (fillLoop sampleEntries ⟨0, 0, 0⟩ ⟨0, 0, 0⟩ 0 (initialFillState (some 5)) [⟨0, 0, 0⟩]) ∧
    fillLoop sampleEntries ⟨0, 0, 0⟩ ⟨0, 0, 0⟩ 0 ⟨5, 5, [], 10000, true⟩ [⟨0, 0, 0⟩] =
      ⟨5, 5, [], 10000, true⟩ ∧
    fillStepOne sampleEntries (initialFillState (some 5)) ⟨0, 0, 0⟩ =
      ⟨1, 5, [0, 0, 0], 10000, true⟩ := by
  obtain ⟨h1, _, h3⟩ :=
    c10_fill_invariant sampleEntries ⟨0, 0, 0⟩ ⟨0, 0, 0⟩ 0 (initialFillState (some 5)) [⟨0, 0, 0⟩]
  obtain ⟨_, h2, _⟩ :=
    c10_fill_invariant sampleEntries ⟨0, 0, 0⟩ ⟨0, 0, 0⟩ 0 ⟨5, 5, [], 10000, true⟩ [⟨0, 0, 0⟩]
  have hcls : classifyPoint sampleEntries ⟨0, 0, 0⟩ = Classify.accepted 1 := by
    have hsearch : searchForPoint sampleEntries ⟨0, 0, 0⟩ = sampleEntries := by
      norm_num [searchForPoint, shmSearch, sampleEntries, sampleTri, shmPlane, planeNormal,
        Plane.projectPoint, Plane.distanceToPoint, Vec3.dot, List.filter]
    unfold classifyPoint
    rw [hsearch]
    norm_num [countRayHits, rayHitsTriangle, rayTriangleDistance, frameRay, sampleTri,
      sampleEntries, Vec3.sub, Vec3.cross, Vec3.dot, List.filter]
  refine ⟨h1 ⟨rfl, by norm_num [initialFillState]⟩, h2 rfl, ?_⟩
  rw [h3 ⟨0, 0, 0⟩ 1 hcls]
  rfl

/-- With auto sizing on, duration 20 rescales the chunk by 16/20 = 4/5. -/
lemma adaptChunkSize_twenty (q : ℚ) : adaptChunkSize true 20 q = q * (4 / 5) := by
  norm_num [adaptChunkSize]

/-- With auto sizing on, duration 8 rescales the chunk by 16/8 = 2. -/
lemma adaptChunkSize_eight (q : ℚ) : adaptChunkSize true 8 q = q * 2 := by
  norm_num [adaptChunkSize]

/-- Positivity of the chunk size is preserved by iterating the duration-20
adaptation. -/
lemma adaptChunkSize_twenty_iter_pos (c : ℚ) (hc : 0 < c) :
    ∀ n : ℕ, 0 < (fun q => adaptChunkSize true 20 q)^[n] c := by
  intro n
  induction n with
  | zero => simpa using hc
  | succ n ih =>
    rw [Function.iterate_succ_apply', adaptChunkSize_twenty]
    positivity

/-- Positivity of the chunk size is preserved by iterating the duration-8
adaptation. -/
lemma adaptChunkSize_eight_iter_pos (c : ℚ) (hc : 0 < c) :
    ∀ n : ℕ, 0 < (fun q => adaptChunkSize true 8 q)^[n] c := by
  intro n
  induction n with
  | zero => simpa using hc
  | succ n ih =>
    rw [Function.iterate_succ_apply', adaptChunkSize_eight]
    positivity

/-- Claim C6: after a fill step the chunk size becomes exactly
chunk * (16 / duration) when the measured duration leaves the open window
(above 16 or below 12) and stays unchanged inside [12, 16]; the frame routine
applies precisely this adaptation to the state chunk size; consequently under
a constant duration of 20 the chunk size strictly decreases on every step and
under a constant duration of 8 it strictly increases on every step. -/
theorem c6_adaptive_batch (d c : ℚ) (entries : List SHMEntry) (center size : Vec3)
    (st : FillState) (rand : List Vec3) :
    (d > 16 ∨ d < 12 → adaptChunkSize true d c = c * (16 / d)) ∧
    (12 ≤ d → d ≤ 16 → adaptChunkSize true d c = c) ∧
    (fillMeshWithParticlesFrame entries center size st rand d).fillChunckSize =
      adaptChunkSize st.fillChunckAutoSize d st.fillChunckSize ∧
    (0 < c → adaptChunkSize true 20 c < c) ∧
    (0 < c → c < adaptChunkSize true 8 c) ∧
    (∀ n : ℕ, 0 < c →
      (fun q => adaptChunkSize true 20 q)^[n + 1] c < (fun q => adaptChunkSize true 20 q)^[n] c) ∧
    (∀ n : ℕ, 0 < c →
      (fun q => adaptChunkSize true 8 q)^[n] c < (fun q => adaptChunkSize true 8 q)^[n + 1] c) := by
  refine ⟨?_, ?_, ?_, ?_, ?_, ?_, ?_⟩
  · intro h
    unfold adaptChunkSize
    rw [if_pos rfl, if_pos h]
  · intro h1 h2
    unfold adaptChunkSize
    rw [if_pos rfl, if_neg]
    push_neg
    exact ⟨h2, h1⟩
  · obtain ⟨hc, ha⟩ := fillLoop_frame_fields entries center size rand 0 st
    unfold fillMeshWithParticlesFrame
    simp only [hc, ha]
  · intro hc
    rw [adaptChunkSize_twenty]
    nlinarith
  · intro hc
    rw [adaptChunkSize_eight]
    nlinarith
  · intro n hc
    have hp := adaptChunkSize_twenty_iter_pos c hc n
    rw [Function.iterate_succ_apply', adaptChunkSize_twenty]
    nlinarith
  · intro n hc
    have hp := adaptChunkSize_eight_iter_pos c hc n
    rw [Function.iterate_succ_apply', adaptChunkSize_eight]
    nlinarith

/-- Witness for C6 at chunk size 10000 with durations 20, 14 and 8. -/
theorem c6_adaptive_batch_witness :
    adaptChunkSize true 20 10000 = 10000 * (16 / 20) ∧
    adaptChunkSize true 14 10000 = 10000 ∧
    adaptChunkSize true 20 10000 < 10000 ∧
    (10000 : ℚ) < adaptChunkSize true 8 10000 ∧
    (fun q => adaptChunkSize true 20 q)^[1] 10000 < (fun q => adaptChunkSize true 20 q)^[0] 10000 ∧
    (fun q => adaptChunkSize true 8 q)^[0] 10000 < (fun q => adaptChunkSize true 8 q)^[1] 10000 := by
  obtain ⟨h1, _, _, h4, h5, h6, h7⟩ :=
    c6_adaptive_batch 20 10000 [] ⟨0, 0, 0⟩ ⟨0, 0, 0⟩ (initialFillState none) []
  obtain ⟨_, h2, _, _, _, _, _⟩ :=
    c6_adaptive_batch 14 10000 [] ⟨0, 0, 0⟩ ⟨0, 0, 0⟩ (initialFillState none) []
  exact ⟨h1 (by norm_num), h2 (by norm_num) (by norm_num), h4 (by norm_num), h5 (by norm_num),
         h6 0 (by norm_num), h7 0 (by norm_num)⟩

/-- Claim C7 counterexample: the parity ray is not cast along the projection
direction configured at index-build time: at the origin the frame builds a
ray with direction (0, 0, -1), while the stored shmProjectionDirection is
(0, 0, 1). -/
theorem c7_ray_direction_counterexample :
    ¬ (frameRay ⟨0, 0, 0⟩).direction = shmProjectionDirection := by
  simp [frameRay, shmProjectionDirection, planeNormal]
  norm_num

/-- Claim C7 amended: the parity ray is cast from the candidate point along
the hardcoded direction (0, 0, -1) - the negation of the stored projection
direction (0, 0, 1), and indeed toward the projection plane, since one step
along it lowers the plane distance by 1 - with minimum distance 0.1 and
maximum distance 1000, and the membership decision counts intersections only
against the triangles of the matched index entries. -/
theorem c7_ray_cast_amended (entries : List SHMEntry) (pt : Vec3) :
    (frameRay pt).origin = pt ∧
    (frameRay pt).direction = ⟨0, 0, -1⟩ ∧
    shmProjectionDirection = ⟨0, 0, 1⟩ ∧
    (frameRay pt).direction =
      ⟨-shmProjectionDirection.x, -shmProjectionDirection.y, -shmProjectionDirection.z⟩ ∧
    (frameRay pt).near = 1 / 10 ∧
    (0 : ℚ) < (frameRay pt).near ∧
    (frameRay pt).far = 1000 ∧
    shmPlane.distanceToPoint (pt.add (frameRay pt).direction) =
      shmPlane.distanceToPoint pt - 1 ∧
    classifyPoint entries pt =
      (if (searchForPoint entries pt).isEmpty then Classify.rejectedNoMesh
       else if countRayHits (frameRay pt) ((searchForPoint entries pt).map SHMEntry.tri) % 2 = 0
       then Classify.rejectedEven
              (countRayHits (frameRay pt) ((searchForPoint entries pt).map SHMEntry.tri))
       else Classify.accepted
              (countRayHits (frameRay pt) ((searchForPoint entries pt).map SHMEntry.tri))) := by
  refine ⟨rfl, rfl, ?_, ?_, rfl, by norm_num [frameRay], rfl, ?_, rfl⟩
  · rfl
  · norm_num [frameRay, shmProjectionDirection, planeNormal]
  · simp only [shmPlane, planeNormal, Plane.distanceToPoint, Vec3.dot, Vec3.add, frameRay]
    ring

/-- Claim C8 counterexample: invoking the fill entry point again after a
completed session (accepted count 2 equal to target 2) does not reset the
accepted count to 0; the count stays at 2. -/
theorem c8_session_counterexample :
    (fillMeshWithParticles ⟨0, 0, 0⟩ [] [] ⟨2, 2, [1, 2, 3, 4, 5, 6], 10000, true⟩
        [⟨0, 0, 0⟩] 14).particlesCount = 2 ∧
    ¬ (fillMeshWithParticles ⟨0, 0, 0⟩ [] [] ⟨2, 2, [1, 2, 3, 4, 5, 6], 10000, true⟩
        [⟨0, 0, 0⟩] 14).particlesCount = 0 := by
  have h2 : (fillMeshWithParticles ⟨0, 0, 0⟩ [] [] ⟨2, 2, [1, 2, 3, 4, 5, 6], 10000, true⟩
      [⟨0, 0, 0⟩] 14).particlesCount = 2 := rfl
  exact ⟨h2, by omega⟩

/-- Claim C8 amended: the fill entry point performs no session-state check
and defines no SessionAlreadyActiveError - it cannot fail; in every state,
completed or mid-fill, it unconditionally computes the bounding box of the
vertices and runs a fill frame, and invoked after a completed session it
leaves both the accepted count and the particle store unchanged instead of
resetting them. -/
theorem c8_session_amended (v0 : Vec3) (vrest : List Vec3) (entries : List SHMEntry)
    (st : FillState) (rand : List Vec3) (d : ℚ) :
    fillMeshWithParticles v0 vrest entries st rand d =
      fillMeshWithParticlesFrame entries
        ⟨((vrest.foldl vecMin v0).x + (vrest.foldl vecMax v0).x) / 2,
         ((vrest.foldl vecMin v0).y + (vrest.foldl vecMax v0).y) / 2,
         ((vrest.foldl vecMin v0).z + (vrest.foldl vecMax v0).z) / 2⟩
        ((vrest.foldl vecMax v0).sub (vrest.foldl vecMin v0)) st rand d ∧
    (st.particlesCount = st.nParticles →
      (fillMeshWithParticles v0 vrest entries st rand d).particlesCount = st.particlesCount ∧
      (fillMeshWithParticles v0 vrest entries st rand d).particles = st.particles) := by
  refine ⟨rfl, fun h => ?_⟩
  have key : ∀ center size : Vec3,
      (fillMeshWithParticlesFrame entries center size st rand d).particlesCount =
        st.particlesCount ∧
      (fillMeshWithParticlesFrame entries center size st rand d).particles = st.particles := by
    intro center size
    unfold fillMeshWithParticlesFrame
    simp only [fillLoop_complete entries center size 0 st rand h]
    exact ⟨trivial, trivial⟩
  exact ⟨(key _ _).1, (key _ _).2⟩

/-- Witness for the amended C8: the unconditional frame equation extracted at
a mid-fill state (count 1, target 2), and the no-reset consequences at a
completed session (count 2, target 2). -/
theorem c8_session_amended_witness :
    fillMeshWithParticles ⟨0, 0, 0⟩ [] [] ⟨1, 2, [1, 2, 3], 10000, true⟩ [] 14 =
      fillMeshWithParticlesFrame [] ⟨(0 + 0) / 2, (0 + 0) / 2, (0 + 0) / 2⟩
        (Vec3.sub ⟨0, 0, 0⟩ ⟨0, 0, 0⟩) ⟨1, 2, [1, 2, 3], 10000, true⟩ [] 14 ∧
    (fillMeshWithParticles ⟨0, 0, 0⟩ [] [] ⟨2, 2, [1, 2, 3, 4, 5, 6], 10000, true⟩
        [] 14).particlesCount = 2 ∧
    (fillMeshWithParticles ⟨0, 0, 0⟩ [] [] ⟨2, 2, [1, 2, 3, 4, 5, 6], 10000, true⟩
        [] 14).particles = [1, 2, 3, 4, 5, 6] := by
  obtain ⟨hA, _⟩ := c8_session_amended ⟨0, 0, 0⟩ [] []
    ⟨1, 2, [1, 2, 3], 10000, true⟩ [] 14
  obtain ⟨_, hB⟩ := c8_session_amended ⟨0, 0, 0⟩ [] []
    ⟨2, 2, [1, 2, 3, 4, 5, 6], 10000, true⟩ [] 14
  obtain ⟨h1, h2⟩ := hB rfl
  exact ⟨hA, h1, h2⟩
